import Mathlib

/-!
Shallow embedding of the `recipe_generator` RAG pipeline
(`src/backend/rag_pipeline.py`, with the data model from
`src/backend/models.py` and the web client from `src/backend/mcp_client.py`).

Python strings are modelled as lists of Unicode code points (`List Nat`);
all string data in the repository is ASCII.  External collaborators
(Azure completion, Qdrant retrieval, MCP health check and web search) are
modelled as oracle values of type `Except PyErr _`, quantified over in the
theorems, so a theorem about "every behavior of the collaborators" is a
`∀` over these oracles.  Python exceptions are modelled with `Except`.
-/

deriving instance DecidableEq for Except

namespace RecipeGen

/-- Python strings modelled as lists of code points. -/
abbrev PyStr := List Nat

/-- Code points of a Lean string literal (ASCII throughout this development). -/
def pstr (s : String) : PyStr := s.data.map Char.toNat

/-- Python `str.lower` on one code point (ASCII range, which covers all data
appearing in the repository). -/
def lowerN (n : Nat) : Nat := if 65 ≤ n ∧ n ≤ 90 then n + 32 else n

/-- Python `str.lower`. -/
def lowerStr (s : PyStr) : PyStr := s.map lowerN

/-- Python `str.upper` on one code point (ASCII range). -/
def upperN (n : Nat) : Nat := if 97 ≤ n ∧ n ≤ 122 then n - 32 else n

/-- ASCII letter (the cased characters relevant to `str.title`). -/
def alphaN (n : Nat) : Bool := decide ((65 ≤ n ∧ n ≤ 90) ∨ (97 ≤ n ∧ n ≤ 122))

/-- The whitespace removed by Python `str.strip()`:
space, `\t`, `\n`, `\r`, `\v`, `\f`. -/
def wsN (n : Nat) : Bool := decide (n = 32 ∨ n = 9 ∨ n = 10 ∨ n = 13 ∨ n = 11 ∨ n = 12)

/-- Python `str.strip()`: drop whitespace from both ends. -/
def stripWs (s : PyStr) : PyStr := (s.dropWhile wsN).rdropWhile wsN

/-- Python str.rstrip of the letter s: drop every trailing s (code point 115). -/
def rstripS (s : PyStr) : PyStr := s.rdropWhile (fun n => n == 115)

/-- `a` is a prefix of `b` (Boolean). -/
def isPrefixB : PyStr → PyStr → Bool
  | [], _ => true
  | _ :: _, [] => false
  | a :: as, b :: bs => (a == b) && isPrefixB as bs

/-- Python substring test `a in b`: `a` occurs contiguously in `b`. -/
def inStr (a : PyStr) : PyStr → Bool
  | [] => a.isEmpty
  | b :: bs => isPrefixB a (b :: bs) || inStr a bs

/-- `ing.lower().strip()` as computed by `validate_ingredients`. -/
def cleanIng (s : PyStr) : PyStr := stripWs (lowerStr s)

/-- Python `str.title` (ASCII): uppercase each letter that follows a
non-letter, lowercase the other letters. -/
def titleGo : Bool → PyStr → PyStr
  | _, [] => []
  | prevCased, n :: rest =>
    (if alphaN n then (if prevCased then lowerN n else upperN n) else n)
      :: titleGo (alphaN n) rest

def titleStr (s : PyStr) : PyStr := titleGo false s

/-- `", ".join(l)` and friends. -/
def joinStr (sep : PyStr) (l : List PyStr) : PyStr := List.intercalate sep l

/-- Python `int.__str__` (used by the f-strings), on our `Int` model. -/
def fmtInt (m : Int) : PyStr := pstr (toString m)

/-- The f-string `f"{realistic_cooking_time} minutes"`. -/
def fmtMinutes (m : Int) : PyStr := fmtInt m ++ pstr " minutes"

/-- Python truthiness default `x or default` for an optional int
(`None` and `0` are falsy). -/
def pyOrInt (x : Option Int) (d : Int) : Int :=
  match x with
  | none => d
  | some v => if v = 0 then d else v

/-- Python truthiness default `x or default` for an optional string
(`None` and `""` are falsy). -/
def pyOrStr (x : Option PyStr) (d : PyStr) : PyStr :=
  match x with
  | none => d
  | some s => if s = [] then d else s

/-- Python truthiness default `x or default` for an optional list
(`None` and `[]` are falsy). -/
def pyOrList (x : Option (List PyStr)) (d : List PyStr) : List PyStr :=
  match x with
  | none => d
  | some l => if l = [] then d else l

/-! ## Ingredient classification sets (`RAGPipeline.__init__`, lines 35-64).
Python `set` literals are embedded as lists in source order; the pipeline
only ever iterates them with `any(...)`, for which duplicates and order are
irrelevant. -/

def pantry_staples : List PyStr :=
  [pstr "salt", pstr "pepper", pstr "black pepper", pstr "white pepper", pstr "sugar",
   pstr "oil", pstr "olive oil", pstr "vegetable oil", pstr "cooking oil", pstr "butter",
   pstr "water", pstr "garlic powder", pstr "onion powder"]

def vegetarian_ingredients : List PyStr :=
  [pstr "tomato", pstr "onion", pstr "garlic", pstr "potato", pstr "carrot",
   pstr "bell pepper", pstr "capsicum", pstr "broccoli", pstr "spinach", pstr "lettuce",
   pstr "cucumber", pstr "zucchini", pstr "eggplant", pstr "mushrooms", pstr "celery",
   pstr "corn", pstr "apple", pstr "banana", pstr "orange", pstr "lemon", pstr "lime",
   pstr "berries", pstr "strawberries", pstr "mango", pstr "avocado", pstr "rice",
   pstr "pasta", pstr "bread", pstr "flour", pstr "oats", pstr "quinoa", pstr "noodles",
   pstr "wheat", pstr "barley", pstr "milk", pstr "cheese", pstr "butter", pstr "yogurt",
   pstr "cream", pstr "mozzarella", pstr "parmesan", pstr "cheddar", pstr "almonds",
   pstr "walnuts", pstr "peanuts", pstr "cashews", pstr "sesame seeds",
   pstr "sunflower seeds", pstr "tofu", pstr "beans", pstr "lentils", pstr "chickpeas",
   pstr "kidney beans", pstr "black beans", pstr "green beans", pstr "paneer",
   pstr "cottage cheese", pstr "soy milk", pstr "coconut", pstr "coconut milk",
   pstr "herbs", pstr "basil", pstr "oregano", pstr "thyme", pstr "rosemary",
   pstr "cilantro", pstr "parsley", pstr "mint", pstr "ginger", pstr "turmeric",
   pstr "cumin", pstr "coriander", pstr "chili", pstr "chilli", pstr "green chili",
   pstr "red chili", pstr "paprika"]

def non_vegetarian_ingredients : List PyStr :=
  [pstr "chicken", pstr "beef", pstr "pork", pstr "lamb", pstr "mutton", pstr "fish",
   pstr "salmon", pstr "tuna", pstr "cod", pstr "tilapia", pstr "shrimp", pstr "prawn",
   pstr "crab", pstr "lobster", pstr "egg", pstr "eggs", pstr "bacon", pstr "ham",
   pstr "sausage", pstr "turkey", pstr "duck", pstr "goose", pstr "venison",
   pstr "rabbit", pstr "anchovy", pstr "sardines", pstr "mackerel"]

def vegan_restricted : List PyStr :=
  [pstr "milk", pstr "cheese", pstr "butter", pstr "yogurt", pstr "cream",
   pstr "mozzarella", pstr "parmesan", pstr "cheddar", pstr "paneer",
   pstr "cottage cheese", pstr "egg", pstr "eggs", pstr "honey", pstr "ghee",
   pstr "mayonnaise"]

/-- `self.common_ingredients = self.vegetarian_ingredients | self.non_vegetarian_ingredients`.
Set union embedded as append; only `any`-iteration is ever performed on it. -/
def common_ingredients : List PyStr := vegetarian_ingredients ++ non_vegetarian_ingredients

/-! ## `RAGPipeline.validate_ingredients` (lines 67-77). -/

/-- First test of the loop body:
`any(common in ing_clean or ing_clean in common for common in self.common_ingredients)`. -/
def matchesCommon (c : PyStr) : Bool :=
  common_ingredients.any (fun com => inStr com c || inStr c com)

/-- Second test (plural handling):
the rstrip-s variant of the first test, both substring directions again. -/
def matchesCommonPlural (c : PyStr) : Bool :=
  common_ingredients.any (fun com => inStr (rstripS c) com || inStr com (rstripS c))

/-- `RAGPipeline.validate_ingredients`: keep (cleaned) entries that match the
common-ingredients set directly or after stripping the trailing s letters. -/
def validateIngredients : List PyStr → List PyStr
  | [] => []
  | ing :: rest =>
    let c := cleanIng ing
    if matchesCommon c then c :: validateIngredients rest
    else if matchesCommonPlural c then c :: validateIngredients rest
    else validateIngredients rest

/-! ## `RAGPipeline.filter_ingredients_by_diet` (lines 80-114). -/

/-- The five vegetable proteins excluded for non-vegetarian diners (line 99). -/
def veg_proteins : List PyStr :=
  [pstr "tofu", pstr "beans", pstr "lentils", pstr "chickpeas", pstr "paneer"]

/-- One iteration of the filtering loop: `True` iff the ingredient survives
all applicable checks.  Each `continue` in the source short-circuits the
remaining checks, which the `&&`-chain reproduces (once some check fails the
ingredient is dropped regardless of the later checks). -/
def dietKeep (restrictions : List PyStr) (ing : PyStr) : Bool :=
  let ingLower := lowerStr ing
  (!((restrictions.contains (pstr "vegetarian") || restrictions.contains (pstr "veg"))
      && non_vegetarian_ingredients.any (fun nv => inStr nv ingLower)))
  && (!((restrictions.contains (pstr "non-vegetarian") || restrictions.contains (pstr "non-veg"))
      && veg_proteins.any (fun vp => inStr vp ingLower)))
  && (!(restrictions.contains (pstr "vegan")
      && (non_vegetarian_ingredients.any (fun nv => inStr nv ingLower)
          || vegan_restricted.any (fun vr => inStr vr ingLower))))

/-- `RAGPipeline.filter_ingredients_by_diet`: identity for an empty
restriction list, otherwise the append-if-kept loop over the ingredients
(a filter by `dietKeep` over the lowercased restrictions). -/
def filterIngredientsByDiet (ingredients : List PyStr) (dietary_restrictions : List PyStr) :
    List PyStr :=
  if dietary_restrictions = [] then ingredients
  else
    let restrictions := dietary_restrictions.map lowerStr
    ingredients.filter (fun ing => dietKeep restrictions ing)

/-! ## `RAGPipeline._parse_cooking_time_minutes` (lines 198-213). -/

/-- ASCII digit. -/
def digitN (n : Nat) : Bool := decide (48 ≤ n ∧ n ≤ 57)

/-- The first match of `re.findall(r"\d+", s)`: the first maximal run of
digits, if any. -/
def firstDigitRun : PyStr → Option PyStr
  | [] => none
  | c :: rest =>
    if digitN c then some (c :: rest.takeWhile digitN)
    else firstDigitRun rest

/-- `int(...)` on a digit run. -/
def natOfDigits (ds : PyStr) : Nat := ds.foldl (fun acc d => acc * 10 + (d - 48)) 0

/-- `RAGPipeline._parse_cooking_time_minutes`: 30 for a falsy or number-free
string, otherwise the first number, multiplied by 60 when the lowercased
string mentions `hour` or `hr`. -/
def parseCookingTime (time_str : PyStr) : Int :=
  if time_str = [] then 30
  else
    match firstDigitRun time_str with
    | none => 30
    | some run =>
      let minutes : Int := (natOfDigits run : Int)
      if inStr (pstr "hour") (lowerStr time_str) || inStr (pstr "hr") (lowerStr time_str) then
        minutes * 60
      else minutes

/-- The `realistic_cooking_time` computed in `generate_recipe` (lines 265-274)
from `max_minutes`.  The initial assignment
`max(10, min(max_minutes, max_minutes - 2))` on line 266 is dead (every
branch of the following `if`/`elif`/`else` overwrites it), so only the
branch chain is embedded. -/
def realisticCookingTime (max_minutes : Int) : Int :=
  if 60 ≤ max_minutes then max_minutes - 5
  else if 30 ≤ max_minutes then max_minutes - 3
  else if 15 ≤ max_minutes then max_minutes - 2
  else max (max_minutes - 1) 10

/-! ## Data model (`src/backend/models.py`). -/

/-- `models.RecipeQuery` (pydantic). -/
structure RecipeQuery where
  ingredients : List PyStr
  dietary_restrictions : Option (List PyStr) := some []
  cooking_time : Option PyStr := none
  difficulty_level : Option PyStr := none
  cuisine_type : Option PyStr := none
  servings : Option Int := none
  flavor_profile : Option PyStr := none
  deriving DecidableEq, Repr

/-- `models.RecipeResponse` (pydantic).  Every construction in the pipeline
passes a string for `additional_notes`, so the field is embedded as `PyStr`. -/
structure RecipeResponse where
  recipe_title : PyStr
  ingredients : List PyStr
  instructions : List PyStr
  cooking_time : PyStr
  difficulty : PyStr
  servings : Int
  additional_notes : PyStr
  deriving DecidableEq, Repr

/-- A retrieved chunk dictionary, as consumed by `process_query`
(lines 484-485): only `content`, `doc_id` and `metadata["doc_id"]` are read. -/
structure Chunk where
  content : PyStr
  doc_id : Option PyStr := none
  meta_doc_id : Option PyStr := none
  deriving DecidableEq, Repr

/-- A web recipe dictionary, as consumed by the pipeline:
only `title`, `summary` and `source` are read, each with a `.get` default. -/
structure WebRecipe where
  title : Option PyStr := none
  summary : Option PyStr := none
  source : Option PyStr := none
  deriving DecidableEq, Repr

/-- Python exceptions relevant to the pipeline. -/
inductive PyErr where
  /-- `NameError`: raised by the handler of `generate_recipe`, which evaluates
  `str(e)` although its bare `except Exception:` never binds `e`. -/
  | nameErrorE : PyErr
  /-- `TypeError`/`AttributeError`: raised when the parsed JSON value is not
  a dict and is subscript-assigned / `.get`-accessed. -/
  | nonDictE : PyErr
  /-- An exception raised by an external collaborator (completion call,
  vector search, MCP client). -/
  | externalE : PyErr
  /-- pydantic `ValidationError`: raised by the `RecipeResponse(...)`
  construction on lines 381-389 when a field value drawn from the parsed
  JSON object does not validate against the declared field type. -/
  | validationE : PyErr
  deriving DecidableEq, Repr

/-- Rendering `str(e)` for the messages interpolated by the handlers.  The
exact text never influences control flow. -/
def pyErrMsg : PyErr → PyStr
  | .nameErrorE => pstr "name e is not defined"
  | .nonDictE => pstr "object does not support item assignment"
  | .externalE => pstr "external service error"
  | .validationE => pstr "validation error for RecipeResponse"

/-- One field slot of the JSON object from the model, for a field whose
pydantic-accepted values embed as `α`: the key can be absent (a `dict.get`
default applies), present with a value that validates, or present with a
JSON value that the pydantic `RecipeResponse` construction rejects
(e.g. a plain string or number for a `List[str]` field).  Which concrete
JSON values validate depends on the installed pydantic; quantifying over
this type covers every classification. -/
inductive JField (α : Type) where
  | absent : JField α
  | good (a : α) : JField α
  | bad : JField α
  deriving DecidableEq, Repr

/-- `dict.get` with default, for field slots; a `bad` slot is only ever
read behind the well-typedness guard. -/
def JField.getD : JField α → α → α
  | .good a, _ => a
  | _, d => d

/-- Is the slot acceptable to the `RecipeResponse` construction
(absent, so a default applies, or present and validating)? -/
def JField.ok : JField α → Bool
  | .bad => false
  | _ => true

/-- The `ingredients` field of the JSON object from the model: absent, a
dict (flattened to `"k: v"` strings by lines 352-355, so it always
validates afterwards, whatever the entry values render as), a list of
strings, or any other present value — e.g. a plain string or a number —
on which the `List[str]` field of `RecipeResponse` raises. -/
inductive JIngredients where
  | absent : JIngredients
  | ofDict (d : List (PyStr × PyStr)) : JIngredients
  | ofList (l : List PyStr) : JIngredients
  | badVal : JIngredients
  deriving DecidableEq, Repr

/-- A JSON object returned by the model, with the keys `generate_recipe`
reads.  `cooking_time`, `difficulty` and `servings` are overwritten with
the enforced values (lines 358-360) before any read, and the final
response takes `servings=target_servings` directly, so ill-typed incoming
values in those three slots never reach pydantic; the other four slots can
be ill-typed (`bad`/`badVal`), in which case the construction raises. -/
structure RecipeDict where
  recipe_title : JField PyStr := .absent
  ingredients : JIngredients := .absent
  instructions : JField (List PyStr) := .absent
  cooking_time : JField PyStr := .absent
  difficulty : JField PyStr := .absent
  servings : JField Int := .absent
  additional_notes : JField PyStr := .absent
  deriving DecidableEq, Repr

/-- Do all the field slots that reach the `RecipeResponse` construction
validate?  (The three enforced slots are excluded: they are overwritten
before being read.) -/
def RecipeDict.wellTyped (d : RecipeDict) : Bool :=
  d.recipe_title.ok && (d.ingredients != .badVal)
    && d.instructions.ok && d.additional_notes.ok

/-- Outcome of `json.loads` on the cleaned reply text of the model:
a parse failure, a JSON value that is not an object (array, string, number,
boolean or null), or an object. -/
inductive JsonOutcome where
  | parseErrorJ : JsonOutcome
  | nonObj : JsonOutcome
  | obj (d : RecipeDict) : JsonOutcome
  deriving DecidableEq, Repr

/-! ## `RAGPipeline.generate_recipe` (lines 216-400).

The retrieved chunks and web recipes are only interpolated into the prompt
(lines 252-328), and the completion call is abstracted as the oracle
`llm : Except PyErr JsonOutcome` giving the outcome of `json.loads` on the
cleaned reply (or the exception the call raised), so the embedding keeps
the chunk/web parameters for shape but the oracle value already ranges over
every possible model behavior.  `final_ingredients = list(set(...))` on
line 249 is never used afterwards and is omitted. -/

/-- Early return for an empty validation result (lines 221-230). -/
def unableResponse (q : RecipeQuery) : RecipeResponse where
  recipe_title := pstr "Unable to Create Recipe"
  ingredients := [pstr "Please provide valid ingredients"]
  instructions := [pstr "No valid ingredients found. Try common vegetables, grains, or proteins."]
  cooking_time := pyOrStr q.cooking_time (pstr "N/A")
  difficulty := pyOrStr q.difficulty_level (pstr "N/A")
  servings := pyOrInt q.servings 1
  additional_notes := pstr "Provide common ingredients like chicken, rice, vegetables, etc."

/-- `diet_info` (line 237). -/
def dietInfo (q : RecipeQuery) : PyStr :=
  match q.dietary_restrictions with
  | none => pstr "specified dietary"
  | some l => if l = [] then pstr "specified dietary" else joinStr (pstr ", ") l

/-- Early return for an empty post-filter list (lines 236-246). -/
def noRecipeResponse (q : RecipeQuery) : RecipeResponse where
  recipe_title := pstr "No Recipe Available"
  ingredients := [pstr "No ingredients available for specified diet"]
  instructions := [pstr "No " ++ dietInfo q ++ pstr " ingredients found in your list."]
  cooking_time := pyOrStr q.cooking_time (pstr "N/A")
  difficulty := pyOrStr q.difficulty_level (pstr "N/A")
  servings := pyOrInt q.servings 1
  additional_notes := pstr "Try adding " ++ dietInfo q ++ pstr " ingredients to your list."

/-- The fallback dict built on `json.JSONDecodeError` (lines 364-379),
already folded through the final `RecipeResponse` construction
(lines 381-389), whose `.get` calls all find the keys present. -/
def fallbackResponse (filtered : List PyStr) (target_difficulty : PyStr)
    (target_servings : Int) (realistic : Int) : RecipeResponse where
  recipe_title := pstr "Simple " ++ titleStr target_difficulty ++ pstr " Recipe"
  ingredients := [pstr "Use the provided ingredients: " ++ joinStr (pstr ", ") (filtered.take 5)]
  instructions :=
    [pstr "Prepare all ingredients by washing and chopping as needed.",
     pstr "Heat oil in a pan over medium heat.",
     pstr "Add ingredients in order of cooking time needed.",
     pstr "Cook while stirring occasionally.",
     pstr "Season with salt and pepper to taste.",
     pstr "Cook until done and serve hot."]
  cooking_time := fmtMinutes realistic
  difficulty := target_difficulty
  servings := target_servings
  additional_notes := pstr "Recipe generated with fallback due to parsing issue."

/-- The JSON-object branch (lines 348-360 folded through lines 381-389) for
a well-typed object: a dict-shaped `ingredients` value is flattened to
`"k: v"` strings, then `servings`, `cooking_time` and `difficulty` are
overwritten with the enforced values before the `.get`-with-default reads.
(The `badVal` arm is unreachable behind the `wellTyped` guard in
`generateRecipeTry`.) -/
def objResponse (d : RecipeDict) (filtered : List PyStr) (target_difficulty : PyStr)
    (target_servings : Int) (realistic : Int) : RecipeResponse where
  recipe_title := d.recipe_title.getD (pstr "Generated Recipe")
  ingredients :=
    (match d.ingredients with
     | .ofDict kvs => kvs.map (fun kv => kv.1 ++ pstr ": " ++ kv.2)
     | .ofList l => l
     | _ => filtered)
  instructions := d.instructions.getD [pstr "Instructions not available"]
  cooking_time := fmtMinutes realistic
  difficulty := target_difficulty
  servings := target_servings
  additional_notes := d.additional_notes.getD (pstr "Recipe generated successfully.")

/-- The `try:` body of `generate_recipe` (lines 218-389). -/
def generateRecipeTry (q : RecipeQuery) (_retrieved_chunks : List Chunk)
    (_web_recipes : List WebRecipe) (llm : Except PyErr JsonOutcome) :
    Except PyErr RecipeResponse :=
  let valid := validateIngredients q.ingredients
  if valid = [] then .ok (unableResponse q)
  else
    let filtered := filterIngredientsByDiet valid (pyOrList q.dietary_restrictions [])
    if filtered = [] then .ok (noRecipeResponse q)
    else
      let target_servings := pyOrInt q.servings 1
      let max_minutes := parseCookingTime (pyOrStr q.cooking_time (pstr "30 minutes"))
      let target_difficulty := pyOrStr q.difficulty_level (pstr "medium")
      let realistic := realisticCookingTime max_minutes
      match llm with
      | .error e => .error e
      | .ok .parseErrorJ =>
        .ok (fallbackResponse filtered target_difficulty target_servings realistic)
      | .ok .nonObj => .error .nonDictE
      | .ok (.obj d) =>
        -- Lines 352-360 (dict flattening and enforcement assignments) cannot
        -- raise on a dict; the RecipeResponse construction on lines 381-389
        -- raises pydantic ValidationError iff some consumed slot is ill-typed.
        if d.wellTyped then
          .ok (objResponse d filtered target_difficulty target_servings realistic)
        else .error .validationE

/-- `RAGPipeline.generate_recipe`.  Its `except Exception:` handler
(lines 391-400) does not bind the exception, yet interpolates `str(e)` into
the instructions of the fallback; evaluating that unbound `e` raises `NameError`,
so any exception inside the body escapes the method as `NameError` instead
of producing the "Error Generating Recipe" response. -/
def generateRecipe (q : RecipeQuery) (retrieved_chunks : List Chunk)
    (web_recipes : List WebRecipe) (llm : Except PyErr JsonOutcome) :
    Except PyErr RecipeResponse :=
  match generateRecipeTry q retrieved_chunks web_recipes llm with
  | .ok r => .ok r
  | .error _ => .error .nameErrorE

/-- The response the handler on lines 392-400 attempts to build (it is never
returned, because `str(e)` raises first; kept as the reference value the
source intends). -/
def errorGeneratingResponse (q : RecipeQuery) (e : PyErr) : RecipeResponse where
  recipe_title := pstr "Error Generating Recipe"
  ingredients := q.ingredients
  instructions := [pstr "Error occurred: " ++ pyErrMsg e]
  cooking_time := pyOrStr q.cooking_time (pstr "30 minutes")
  difficulty := pyOrStr q.difficulty_level (pstr "medium")
  servings := pyOrInt q.servings 1
  additional_notes := pstr "An error occurred during recipe generation"

/-! ## `RAGPipeline.process_query` (lines 403-514).

Oracles: `retrieve` is the outcome of the embedding + vector search inside
`retrieve_relevant_chunks` (whose own handler turns an exception into `[]`),
`healthCheck` and `webSearch` are the MCP client calls, `llm` the completion
call.  The search-query string (lines 446-452) and the conditions string
(lines 461-468) only feed these oracles, whose quantified values already
range over every possible response. -/

/-- The result dictionary of `process_query`: it is built, on every path,
with exactly the keys `recipe`, `confidence_score`, `sources_used`,
`chunks_retrieved` and `web_recipes_found`.  `float` is embedded as `ℚ`. -/
structure PQResult where
  recipe : RecipeResponse
  confidence_score : ℚ
  sources_used : List PyStr
  chunks_retrieved : Nat
  web_recipes_found : Nat
  deriving DecidableEq, Repr

/-- Normalization of one dietary restriction (lines 412-421). -/
def normalizeDietEntry (d : PyStr) : PyStr :=
  let dl := stripWs (lowerStr d)
  if dl = pstr "veg" ∨ dl = pstr "vegetarian" then pstr "vegetarian"
  else if dl = pstr "non-veg" ∨ dl = pstr "non vegetarian" ∨ dl = pstr "nonvegetarian"
      ∨ dl = pstr "non_veg" then pstr "non-vegetarian"
  else if dl = pstr "vegan" then pstr "vegan"
  else dl

/-- The in-place query mutations at the top of `process_query`
(lines 406-424): floor servings at 1 (`None` and `0` are falsy) and
normalize the dietary restrictions.  They precede every statement that can
raise, so the top-level handler always observes the mutated query. -/
def normalizeQuery (q : RecipeQuery) : RecipeQuery :=
  { q with
    servings := some (match q.servings with
      | none => 1
      | some v => if v < 1 then 1 else v),
    dietary_restrictions := some (match q.dietary_restrictions with
      | none => []
      | some l => if l = [] then [] else l.map normalizeDietEntry) }

/-- The "Invalid Ingredients" dictionary (lines 429-443), returned when no
ingredient validates; `query.servings` has already been floored at 1. -/
def invalidResult (q : RecipeQuery) : PQResult where
  recipe :=
    { recipe_title := pstr "Invalid Ingredients"
      ingredients := [pstr "Please provide common ingredients"]
      instructions := [pstr "No valid ingredients provided"]
      cooking_time := pstr "N/A"
      difficulty := pstr "N/A"
      servings := q.servings.getD 1
      additional_notes := pstr "Try ingredients like chicken, rice, vegetables, etc." }
  confidence_score := 0
  sources_used := []
  chunks_retrieved := 0
  web_recipes_found := 0

/-- The web-recipe acquisition (lines 458-471): `[]` unless the health check
succeeds with `True` and the search returns normally; the surrounding
`try`/`except` turns any exception into `[]`. -/
def computeWeb (healthCheck : Except PyErr Bool) (webSearch : Except PyErr (List WebRecipe)) :
    List WebRecipe :=
  match healthCheck with
  | .error _ => []
  | .ok false => []
  | .ok true =>
    match webSearch with
    | .error _ => []
    | .ok l => l

/-- `doc_id = chunk.get("doc_id") or chunk.get("metadata", {}).get("doc_id", "unknown")`
(line 485): a missing or empty `doc_id` falls back to the metadata value or
`"unknown"`. -/
def docIdOf (c : Chunk) : PyStr :=
  match c.doc_id with
  | some s => if s = [] then c.meta_doc_id.getD (pstr "unknown") else s
  | none => c.meta_doc_id.getD (pstr "unknown")

/-- The `sources_used` list before deduplication (lines 483-489). -/
def sourcesUsed (chunks : List Chunk) (web : List WebRecipe) : List PyStr :=
  chunks.map docIdOf
    ++ (if web = [] then []
        else (web.take 2).map (fun r => pstr "web:" ++ r.source.getD (pstr "unknown")))

/-- The confidence score (lines 477-480), with `float` embedded as `ℚ`. -/
def confidenceScore (chunks : List Chunk) (ingredients valid : List PyStr)
    (web : List WebRecipe) : ℚ :=
  let base : ℚ := min ((chunks.length : ℚ) * (15 / 100)) (8 / 10)
  let ingredient_confidence : ℚ :=
    if ingredients = [] then 0 else (valid.length : ℚ) / (ingredients.length : ℚ)
  let web_boost : ℚ := if web = [] then 0 else 1 / 10
  min (base * ingredient_confidence + web_boost) 1

/-- The `try:` body of `process_query` after the (exception-free) query
mutations (lines 426-497).  `list(set(sources_used))` is embedded as
`List.dedup`; the CPython set iteration order is unspecified, and no claim
depends on the order. -/
def processQueryBody (q : RecipeQuery) (retrieve : Except PyErr (List Chunk))
    (healthCheck : Except PyErr Bool) (webSearch : Except PyErr (List WebRecipe))
    (llm : Except PyErr JsonOutcome) : Except PyErr PQResult :=
  let valid := validateIngredients q.ingredients
  if valid = [] then .ok (invalidResult q)
  else
    let chunks := match retrieve with
      | .ok l => l
      | .error _ => []   -- retrieve_relevant_chunks catches and returns []
    let web := computeWeb healthCheck webSearch
    match generateRecipe q chunks web llm with
    | .error e => .error e
    | .ok recipe =>
      .ok { recipe := recipe
            confidence_score := confidenceScore chunks q.ingredients valid web
            sources_used := (sourcesUsed chunks web).dedup
            chunks_retrieved := chunks.length
            web_recipes_found := web.length }

/-- The "Processing Error" dictionary built by the top-level handler
(lines 499-514); by the time any exception can occur the query has already
been mutated by `normalizeQuery`. -/
def processingErrorResult (q : RecipeQuery) (e : PyErr) : PQResult where
  recipe :=
    { recipe_title := pstr "Processing Error"
      ingredients := if q.ingredients = [] then [pstr "No ingredients"] else q.ingredients
      instructions := [pstr "Error: " ++ pyErrMsg e]
      cooking_time := pyOrStr q.cooking_time (pstr "30 minutes")
      difficulty := pyOrStr q.difficulty_level (pstr "medium")
      servings := pyOrInt q.servings 1
      additional_notes := pstr "Error occurred during processing" }
  confidence_score := 0
  sources_used := []
  chunks_retrieved := 0
  web_recipes_found := 0

/-- `RAGPipeline.process_query`: mutate the query, run the body, and catch
any exception with the "Processing Error" fallback. -/
def processQuery (q : RecipeQuery) (retrieve : Except PyErr (List Chunk))
    (healthCheck : Except PyErr Bool) (webSearch : Except PyErr (List WebRecipe))
    (llm : Except PyErr JsonOutcome) : Except PyErr PQResult :=
  let q' := normalizeQuery q
  match processQueryBody q' retrieve healthCheck webSearch llm with
  | .ok r => .ok r
  | .error e => .ok (processingErrorResult q' e)

/-! ## Reference (specification-side) description of the dietary filter.

These two definitions follow the wording of the dietary-filtering claim —
"the subsequence of input ingredients whose lowercased form contains no
element of the applicable restricted set as a substring" — to be compared
with `filterIngredientsByDiet`, which is embedded from the source loop. -/

/-- The restricted substrings applicable to a (lowercased) restriction list:
the non-vegetarian ingredients for `"vegetarian"`/`"veg"`, the five
vegetable proteins for `"non-vegetarian"`/`"non-veg"`, and the
non-vegetarian ingredients together with `vegan_restricted` for `"vegan"`. -/
def applicableRestricted (restrictions : List PyStr) : List PyStr :=
  (if restrictions.contains (pstr "vegetarian") || restrictions.contains (pstr "veg")
   then non_vegetarian_ingredients else [])
  ++ (if restrictions.contains (pstr "non-vegetarian") || restrictions.contains (pstr "non-veg")
      then veg_proteins else [])
  ++ (if restrictions.contains (pstr "vegan")
      then non_vegetarian_ingredients ++ vegan_restricted else [])

/-- Specification-side keep test: the lowercased form of the ingredient contains
no element of the applicable restricted set as a substring. -/
def keptBySpec (dietary_restrictions : List PyStr) (ing : PyStr) : Bool :=
  (applicableRestricted (dietary_restrictions.map lowerStr)).all
    (fun s => !(inStr s (lowerStr ing)))

/-! ## Concrete inputs used by witnesses and counterexamples. -/

/-- A query with one valid ingredient and every optional field defaulted. -/
def cqTomato : RecipeQuery := { ingredients := [pstr "tomato"] }

/-- A query whose only ingredient matches nothing in the common set. -/
def cqNoMatch : RecipeQuery := { ingredients := [pstr "qqq"] }

/-! ## Helper lemmas. -/

theorem lowerN_idem (n : Nat) : lowerN (lowerN n) = lowerN n := by
  unfold lowerN
  split_ifs <;> omega

theorem wsN_lowerN (n : Nat) : wsN (lowerN n) = wsN n := by
  unfold wsN lowerN
  split_ifs with h
  · simp only [decide_eq_decide]
    omega
  · rfl

theorem wsN_comp_lowerN : wsN ∘ lowerN = wsN := funext wsN_lowerN

theorem lowerStr_idem (s : PyStr) : lowerStr (lowerStr s) = lowerStr s := by
  unfold lowerStr
  rw [List.map_map]
  exact List.map_congr_left (fun a _ => lowerN_idem a)

theorem dropWhile_lowerStr (s : PyStr) :
    (lowerStr s).dropWhile wsN = lowerStr (s.dropWhile wsN) := by
  unfold lowerStr
  rw [List.dropWhile_map, wsN_comp_lowerN]

theorem rdropWhile_lowerStr (s : PyStr) :
    (lowerStr s).rdropWhile wsN = lowerStr (s.rdropWhile wsN) := by
  unfold lowerStr List.rdropWhile
  rw [← List.map_reverse, List.dropWhile_map, wsN_comp_lowerN, List.map_reverse]

theorem lowerStr_stripWs (s : PyStr) : lowerStr (stripWs s) = stripWs (lowerStr s) := by
  unfold stripWs
  rw [dropWhile_lowerStr, rdropWhile_lowerStr]

theorem stripWs_idem (s : PyStr) : stripWs (stripWs s) = stripWs s := by
  unfold stripWs
  have h1 : ((s.dropWhile wsN).rdropWhile wsN).dropWhile wsN
      = (s.dropWhile wsN).rdropWhile wsN := by
    rw [List.dropWhile_eq_self_iff]
    intro hl
    have hpre : (s.dropWhile wsN).rdropWhile wsN <+: s.dropWhile wsN :=
      List.rdropWhile_prefix wsN (s.dropWhile wsN)
    have hlen : 0 < (s.dropWhile wsN).length := lt_of_lt_of_le hl hpre.length_le
    have hget : ((s.dropWhile wsN).rdropWhile wsN).get ⟨0, hl⟩
        = (s.dropWhile wsN).get ⟨0, hlen⟩ := by
      simpa [List.get_eq_getElem] using hpre.getElem hl
    rw [hget]
    exact List.dropWhile_get_zero_not wsN s hlen
  rw [h1, List.rdropWhile_idempotent]

theorem cleanIng_idem (s : PyStr) : cleanIng (cleanIng s) = cleanIng s := by
  unfold cleanIng
  rw [lowerStr_stripWs, lowerStr_idem, stripWs_idem]

/-- Pointwise agreement of the keep decision of the embedded filtering loop with
the specification-side substring description. -/
theorem dietKeep_eq_spec (restrictions : List PyStr) (ing : PyStr) :
    dietKeep restrictions ing
      = (applicableRestricted restrictions).all (fun s => !(inStr s (lowerStr ing))) := by
  unfold dietKeep applicableRestricted
  cases h1 : (restrictions.contains (pstr "vegetarian") || restrictions.contains (pstr "veg")) <;>
  cases h2 : (restrictions.contains (pstr "non-vegetarian")
      || restrictions.contains (pstr "non-veg")) <;>
  cases h3 : restrictions.contains (pstr "vegan") <;>
    simp [h1, h2, h3, List.all_append, Bool.and_assoc, ← List.not_any_eq_all_not]

theorem confidenceScore_le_one (chunks : List Chunk) (ings valid : List PyStr)
    (web : List WebRecipe) : confidenceScore chunks ings valid web ≤ 1 := by
  unfold confidenceScore
  exact min_le_right _ _

theorem confidenceScore_nonneg (chunks : List Chunk) (ings valid : List PyStr)
    (web : List WebRecipe) : 0 ≤ confidenceScore chunks ings valid web := by
  unfold confidenceScore
  dsimp only
  refine le_min ?_ (by norm_num)
  have hbase : (0:ℚ) ≤ min ((chunks.length : ℚ) * (15 / 100)) (8 / 10) :=
    le_min (by positivity) (by norm_num)
  have hic : (0:ℚ) ≤ (if ings = [] then (0:ℚ) else ((valid.length : ℚ) / (ings.length : ℚ))) := by
    split
    · exact le_refl 0
    · positivity
  have hboost : (0:ℚ) ≤ (if web = [] then (0:ℚ) else (1 : ℚ) / 10) := by
    split <;> norm_num
  have := mul_nonneg hbase hic
  linarith


theorem processQueryBody_ok_conf {q : RecipeQuery} {retrieve : Except PyErr (List Chunk)}
    {hc : Except PyErr Bool} {ws : Except PyErr (List WebRecipe)}
    {llm : Except PyErr JsonOutcome} {r : PQResult}
    (h : processQueryBody q retrieve hc ws llm = .ok r) :
    0 ≤ r.confidence_score ∧ r.confidence_score ≤ 1 := by
  unfold processQueryBody at h
  dsimp only at h
  split at h
  · injection h with h
    subst h
    exact ⟨le_refl _, by norm_num [invalidResult]⟩
  · split at h
    · exact absurd h (by simp)
    · injection h with h
      subst h
      exact ⟨confidenceScore_nonneg _ _ _ _, confidenceScore_le_one _ _ _ _⟩

theorem processQueryBody_ok_webfound {q : RecipeQuery} {retrieve : Except PyErr (List Chunk)}
    {hc : Except PyErr Bool} {ws : Except PyErr (List WebRecipe)}
    {llm : Except PyErr JsonOutcome} {r : PQResult}
    (hweb : computeWeb hc ws = [])
    (h : processQueryBody q retrieve hc ws llm = .ok r) :
    r.web_recipes_found = 0 := by
  unfold processQueryBody at h
  dsimp only at h
  rw [hweb] at h
  split at h
  · injection h with h
    subst h
    rfl
  · split at h
    · exact absurd h (by simp)
    · injection h with h
      subst h
      rfl

theorem processQuery_isOk (q : RecipeQuery) (retrieve : Except PyErr (List Chunk))
    (hc : Except PyErr Bool) (ws : Except PyErr (List WebRecipe))
    (llm : Except PyErr JsonOutcome) :
    ∃ r, processQuery q retrieve hc ws llm = .ok r := by
  unfold processQuery
  cases hb : processQueryBody (normalizeQuery q) retrieve hc ws llm with
  | ok r => exact ⟨r, by simp [hb]⟩
  | error e => exact ⟨processingErrorResult (normalizeQuery q) e, by simp [hb]⟩

theorem processQuery_web_irrel {q : RecipeQuery} {retrieve : Except PyErr (List Chunk)}
    {hc : Except PyErr Bool} {ws : Except PyErr (List WebRecipe)}
    {llm : Except PyErr JsonOutcome} (hweb : computeWeb hc ws = []) :
    processQuery q retrieve hc ws llm = processQuery q retrieve (.ok true) (.ok []) llm := by
  have hok : computeWeb (Except.ok true) (Except.ok ([] : List WebRecipe)) = [] := rfl
  simp only [processQuery, processQueryBody, hweb, hok]


/-- Claim C2 (amended): for every query whose cooking_time string parses to
m minutes with m at least 10, the realistic_cooking_time that generate_recipe
enforces on the returned recipe (and states as the maximum in the prompt) is
at most m.  (The amendment restricts the claim to m at least 10: for smaller
parsed times the code deliberately floors the enforced time at 10 minutes,
exceeding the user-specified time — see the counterexample.) -/
theorem claim_C2 (time_str : PyStr) (m : Int)
    (hparse : parseCookingTime time_str = m) (h10 : 10 ≤ m) :
    realisticCookingTime m ≤ m := by
  unfold realisticCookingTime
  split_ifs with h1 h2 h3
  · omega
  · omega
  · omega
  · exact max_le (by omega) h10

/-- Witness for claim C2: the string "45 minutes" parses to 45, which is at
least 10, and the enforced realistic time does not exceed 45. -/
theorem claim_C2_witness :
    parseCookingTime (pstr "45 minutes") = 45 ∧ (10 : Int) ≤ 45
      ∧ realisticCookingTime 45 ≤ 45 :=
  ⟨by decide, by decide, claim_C2 (pstr "45 minutes") 45 (by decide) (by decide)⟩

/-- Counterexample to claim C2 as stated: the cooking-time string
"5 minutes" parses to 5 minutes, but the enforced realistic_cooking_time is
max(5 - 1, 10) = 10 > 5, so the enforced time exceeds the user-specified
time. -/
theorem claim_C2_counterexample :
    parseCookingTime (pstr "5 minutes") = 5
    ∧ realisticCookingTime 5 = 10
    ∧ ¬(realisticCookingTime (parseCookingTime (pstr "5 minutes"))
        ≤ parseCookingTime (pstr "5 minutes")) := by decide

/-- Claim C3 (code bug): when any exception is raised inside the body of
generate_recipe (here: the completion call fails), the method does NOT
return the "Error Generating Recipe" response the claim (and the source,
lines 392-400) intends: its bare `except Exception:` never binds `e`, yet
the handler interpolates `str(e)`, so the handler itself raises `NameError`
and the caller sees an exception, not the fallback response. -/
theorem claim_C3 :
    generateRecipe cqTomato [] [] (.error .externalE) = .error .nameErrorE
    ∧ generateRecipe cqTomato [] [] (.error .externalE)
        ≠ .ok (errorGeneratingResponse cqTomato .externalE) := by decide

/-- Claim C1 (amended): for every query whose ingredients validate and
survive dietary filtering to a non-empty list, and for every model reply
that either fails to parse as JSON or parses to a JSON object all of whose
consumed fields validate against RecipeResponse (recipe_title,
instructions and additional_notes of accepted types, ingredients a string
list or a dict — dict-shaped ingredients always validate after the
"k: v" flattening), the RecipeResponse returned by generate_recipe has
servings equal to (query.servings or 1), difficulty equal to
(query.difficulty_level or "medium"), and cooking_time equal to the string
"(realistic_cooking_time) minutes" computed by the pipeline, overriding
whatever values the model produced.  (The amendment excludes replies that
parse to a non-object JSON value — e.g. the reply "[]" — and JSON objects
with an ill-typed consumed field — e.g. the object with "ingredients" the
plain string "tomato" — for both of which the code raises instead of
returning any response; see the counterexample.) -/
theorem claim_C1 (q : RecipeQuery) (chunks : List Chunk) (web : List WebRecipe)
    (out : JsonOutcome)
    (hv : validateIngredients q.ingredients ≠ [])
    (hf : filterIngredientsByDiet (validateIngredients q.ingredients)
        (pyOrList q.dietary_restrictions []) ≠ [])
    (hout : out = .parseErrorJ ∨ ∃ d, out = .obj d ∧ d.wellTyped = true) :
    ∃ r, generateRecipe q chunks web (.ok out) = .ok r
      ∧ r.servings = pyOrInt q.servings 1
      ∧ r.difficulty = pyOrStr q.difficulty_level (pstr "medium")
      ∧ r.cooking_time = fmtMinutes (realisticCookingTime
          (parseCookingTime (pyOrStr q.cooking_time (pstr "30 minutes")))) := by
  rcases hout with rfl | ⟨d, rfl, hd⟩
  · refine ⟨fallbackResponse
        (filterIngredientsByDiet (validateIngredients q.ingredients)
          (pyOrList q.dietary_restrictions []))
        (pyOrStr q.difficulty_level (pstr "medium")) (pyOrInt q.servings 1)
        (realisticCookingTime (parseCookingTime (pyOrStr q.cooking_time (pstr "30 minutes")))),
      by simp [generateRecipe, generateRecipeTry, hv, hf], rfl, rfl, rfl⟩
  · refine ⟨objResponse d
        (filterIngredientsByDiet (validateIngredients q.ingredients)
          (pyOrList q.dietary_restrictions []))
        (pyOrStr q.difficulty_level (pstr "medium")) (pyOrInt q.servings 1)
        (realisticCookingTime (parseCookingTime (pyOrStr q.cooking_time (pstr "30 minutes")))),
      by simp [generateRecipe, generateRecipeTry, hv, hf, hd], rfl, rfl, rfl⟩

/-- Witness for claim C1: a query with the single ingredient "tomato" and
all optional fields defaulted, with a non-JSON model reply, yields a
response with servings 1, difficulty "medium" and cooking_time
"27 minutes" (30 defaulted minutes, minus 3). -/
theorem claim_C1_witness :
    validateIngredients cqTomato.ingredients ≠ []
    ∧ filterIngredientsByDiet (validateIngredients cqTomato.ingredients)
        (pyOrList cqTomato.dietary_restrictions []) ≠ []
    ∧ ∃ r, generateRecipe cqTomato [] [] (.ok .parseErrorJ) = .ok r
      ∧ r.servings = pyOrInt cqTomato.servings 1
      ∧ r.difficulty = pyOrStr cqTomato.difficulty_level (pstr "medium")
      ∧ r.cooking_time = fmtMinutes (realisticCookingTime
          (parseCookingTime (pyOrStr cqTomato.cooking_time (pstr "30 minutes")))) :=
  ⟨by decide, by decide,
    claim_C1 cqTomato [] [] .parseErrorJ (by decide) (by decide) (Or.inl rfl)⟩

/-- Counterexample to claim C1 as stated, at the two failing reply shapes.
First, the model reply "[]" — a string that parses as JSON but not as a
JSON object — makes generate_recipe return no RecipeResponse at all:
`recipe_data["servings"] = ...` raises TypeError on a list, and the broken
handler re-raises as NameError.  Second, a reply that parses to a JSON
object with an ill-typed consumed field — the object whose "ingredients"
key holds the plain string "tomato" — passes the enforcement assignments
but makes the `RecipeResponse(...)` construction on lines 381-389 raise
pydantic ValidationError (`List[str]` rejects a plain string), which the
broken handler again turns into a propagating NameError. -/
theorem claim_C1_counterexample :
    (generateRecipe cqTomato [] [] (.ok .nonObj) = .error .nameErrorE
      ∧ (generateRecipe cqTomato [] [] (.ok .nonObj)).isOk = false)
    ∧ (generateRecipe cqTomato [] [] (.ok (.obj { ingredients := .badVal }))
        = .error .nameErrorE
      ∧ (generateRecipe cqTomato [] [] (.ok (.obj { ingredients := .badVal }))).isOk
        = false) := by decide


/-- Claim C4: for every RecipeQuery and every behavior of the external
collaborators (retrieval, health check, web search, completion — the four
oracle arguments), process_query never raises: it always returns a result
dictionary (whose record type has exactly the keys recipe,
confidence_score, sources_used, chunks_retrieved and web_recipes_found);
and whenever an exception reaches its top-level handler the result has
confidence_score 0.0, empty sources_used and zero chunk and web-recipe
counts (the fields of processingErrorResult). -/
theorem claim_C4 (q : RecipeQuery) (retrieve : Except PyErr (List Chunk))
    (hc : Except PyErr Bool) (ws : Except PyErr (List WebRecipe))
    (llm : Except PyErr JsonOutcome) :
    (∃ r, processQuery q retrieve hc ws llm = .ok r)
    ∧ (∀ e, processQueryBody (normalizeQuery q) retrieve hc ws llm = .error e →
        processQuery q retrieve hc ws llm
          = .ok (processingErrorResult (normalizeQuery q) e))
    ∧ (∀ e, (processingErrorResult (normalizeQuery q) e).confidence_score = 0
        ∧ (processingErrorResult (normalizeQuery q) e).sources_used = []
        ∧ (processingErrorResult (normalizeQuery q) e).chunks_retrieved = 0
        ∧ (processingErrorResult (normalizeQuery q) e).web_recipes_found = 0) := by
  refine ⟨processQuery_isOk q retrieve hc ws llm, fun e he => ?_, fun e => ⟨rfl, rfl, rfl, rfl⟩⟩
  simp [processQuery, he]

/-- Witness for claim C4: with a failing completion call the body raises
(NameError, via the broken generate_recipe handler) and process_query
still returns the "Processing Error" dictionary with confidence 0. -/
theorem claim_C4_witness :
    processQueryBody (normalizeQuery cqTomato) (.ok []) (.ok false) (.ok []) (.error .externalE)
      = .error .nameErrorE
    ∧ processQuery cqTomato (.ok []) (.ok false) (.ok []) (.error .externalE)
      = .ok (processingErrorResult (normalizeQuery cqTomato) .nameErrorE) :=
  ⟨by decide, (claim_C4 cqTomato (.ok []) (.ok false) (.ok []) (.error .externalE)).2.1
      .nameErrorE (by decide)⟩

/-- Claim C5: filter_ingredients_by_diet applied to an empty
dietary_restrictions list is the identity on the ingredient list, and
otherwise returns exactly the subsequence (a List.filter, hence
order-preserving) of input ingredients whose lowercased form contains no
element of the applicable restricted set as a substring:
non_vegetarian_ingredients for "vegetarian"/"veg", the five vegetable
proteins for "non-vegetarian"/"non-veg", and non_vegetarian_ingredients
together with vegan_restricted for "vegan". -/
theorem claim_C5 (ingredients dietary_restrictions : List PyStr) :
    filterIngredientsByDiet ingredients dietary_restrictions
      = if dietary_restrictions = [] then ingredients
        else ingredients.filter (keptBySpec dietary_restrictions) := by
  unfold filterIngredientsByDiet
  by_cases h : dietary_restrictions = []
  · simp [h]
  · rw [if_neg h, if_neg h]
    exact List.filter_congr fun ing _ =>
      dietKeep_eq_spec (dietary_restrictions.map lowerStr) ing

/-- Claim C6: for every query whose ingredient list produces an empty
result from validate_ingredients, process_query returns the
"Invalid Ingredients" response with confidence_score 0, chunks_retrieved 0
and web_recipes_found 0.  The result is a constant independent of all four
oracle arguments, so no retrieval, web search or model generation is
performed (the claim holds for every behavior of those collaborators and
the result never reflects them). -/
theorem claim_C6 (q : RecipeQuery) (retrieve : Except PyErr (List Chunk))
    (hc : Except PyErr Bool) (ws : Except PyErr (List WebRecipe))
    (llm : Except PyErr JsonOutcome)
    (h : validateIngredients q.ingredients = []) :
    processQuery q retrieve hc ws llm = .ok (invalidResult (normalizeQuery q))
    ∧ (invalidResult (normalizeQuery q)).recipe.recipe_title = pstr "Invalid Ingredients"
    ∧ (invalidResult (normalizeQuery q)).confidence_score = 0
    ∧ (invalidResult (normalizeQuery q)).chunks_retrieved = 0
    ∧ (invalidResult (normalizeQuery q)).web_recipes_found = 0 := by
  have hing : (normalizeQuery q).ingredients = q.ingredients := rfl
  refine ⟨?_, rfl, rfl, rfl, rfl⟩
  simp [processQuery, processQueryBody, hing, h]

/-- Witness for claim C6: the query with single ingredient "qqq" validates
to the empty list and yields the "Invalid Ingredients" dictionary. -/
theorem claim_C6_witness :
    validateIngredients cqNoMatch.ingredients = []
    ∧ processQuery cqNoMatch (.ok []) (.ok true) (.ok []) (.ok .parseErrorJ)
        = .ok (invalidResult (normalizeQuery cqNoMatch)) :=
  ⟨by decide,
    (claim_C6 cqNoMatch (.ok []) (.ok true) (.ok []) (.ok .parseErrorJ) (by decide)).1⟩

/-- Claim C7: for every query with valid ingredients, if the health check
returns false (or raises) or the web search raises, process_query proceeds
with an empty web-recipe list — it behaves exactly as if the web service
were healthy and returned no recipes — still returns a result built from
vector-store context alone, and reports web_recipes_found = 0. -/
theorem claim_C7 (q : RecipeQuery) (retrieve : Except PyErr (List Chunk))
    (hc : Except PyErr Bool) (ws : Except PyErr (List WebRecipe))
    (llm : Except PyErr JsonOutcome)
    (hv : validateIngredients q.ingredients ≠ [])
    (hweb : hc = .ok false ∨ (∃ e, hc = .error e) ∨ (∃ e, ws = .error e)) :
    computeWeb hc ws = []
    ∧ processQuery q retrieve hc ws llm = processQuery q retrieve (.ok true) (.ok []) llm
    ∧ ∃ r, processQuery q retrieve hc ws llm = .ok r ∧ r.web_recipes_found = 0 := by
  have hcw : computeWeb hc ws = [] := by
    rcases hweb with rfl | ⟨e, rfl⟩ | ⟨e, rfl⟩
    · rfl
    · rfl
    · cases hc with
      | error e2 => rfl
      | ok b => cases b <;> rfl
  refine ⟨hcw, processQuery_web_irrel hcw, ?_⟩
  obtain ⟨r, hr⟩ := processQuery_isOk q retrieve hc ws llm
  refine ⟨r, hr, ?_⟩
  unfold processQuery at hr
  dsimp only at hr
  cases hb : processQueryBody (normalizeQuery q) retrieve hc ws llm with
  | ok r2 =>
    rw [hb] at hr
    injection hr with hr
    subst hr
    exact processQueryBody_ok_webfound hcw hb
  | error e =>
    rw [hb] at hr
    injection hr with hr
    subst hr
    rfl

/-- Witness for claim C7: with a raising health check, process_query on the
"tomato" query equals the run with a healthy-but-empty web service. -/
theorem claim_C7_witness :
    validateIngredients cqTomato.ingredients ≠ []
    ∧ processQuery cqTomato (.ok []) (.error .externalE) (.ok []) (.ok .parseErrorJ)
        = processQuery cqTomato (.ok []) (.ok true) (.ok []) (.ok .parseErrorJ) :=
  ⟨by decide,
    (claim_C7 cqTomato (.ok []) (.error .externalE) (.ok []) (.ok .parseErrorJ)
      (by decide) (Or.inr (Or.inl ⟨.externalE, rfl⟩))).2.1⟩

/-- Claim C8 (amended): every ingredient string in the vegetarian
classification set other than "eggplant" is kept by
filter_ingredients_by_diet under the restrictions ["vegetarian"].
(The amendment excludes "eggplant", which the filter wrongly drops because
it contains the non-vegetarian entry "egg" as a substring; see the
counterexample.) -/
theorem claim_C8 (ing : PyStr) (hmem : ing ∈ vegetarian_ingredients)
    (hne : ing ≠ pstr "eggplant") :
    filterIngredientsByDiet [ing] [pstr "vegetarian"] = [ing] := by
  have H : ∀ x ∈ vegetarian_ingredients, x ≠ pstr "eggplant" →
      filterIngredientsByDiet [x] [pstr "vegetarian"] = [x] := by decide
  exact H ing hmem hne

/-- Witness for claim C8: "spinach" is in vegetarian_ingredients, differs
from "eggplant", and is kept by the vegetarian filter. -/
theorem claim_C8_witness :
    pstr "spinach" ∈ vegetarian_ingredients
    ∧ pstr "spinach" ≠ pstr "eggplant"
    ∧ filterIngredientsByDiet [pstr "spinach"] [pstr "vegetarian"] = [pstr "spinach"] :=
  ⟨by decide, by decide, claim_C8 (pstr "spinach") (by decide) (by decide)⟩

/-- Counterexample to claim C8 as stated: "eggplant" belongs to
vegetarian_ingredients, yet the vegetarian filter drops it because the
non-vegetarian substring "egg" occurs in it. -/
theorem claim_C8_counterexample :
    pstr "eggplant" ∈ vegetarian_ingredients
    ∧ inStr (pstr "egg") (lowerStr (pstr "eggplant")) = true
    ∧ filterIngredientsByDiet [pstr "eggplant"] [pstr "vegetarian"] = [] := by decide

/-- Claim C9: for every query and every outcome of retrieval and web
search (any oracle behavior, hence any number of retrieved chunks and web
recipes), the confidence_score in the dictionary returned by process_query
lies in the closed interval [0, 1].  Python floats are embedded as exact
rationals. -/
theorem claim_C9 (q : RecipeQuery) (retrieve : Except PyErr (List Chunk))
    (hc : Except PyErr Bool) (ws : Except PyErr (List WebRecipe))
    (llm : Except PyErr JsonOutcome) (r : PQResult)
    (h : processQuery q retrieve hc ws llm = .ok r) :
    0 ≤ r.confidence_score ∧ r.confidence_score ≤ 1 := by
  unfold processQuery at h
  dsimp only at h
  cases hb : processQueryBody (normalizeQuery q) retrieve hc ws llm with
  | ok r2 =>
    rw [hb] at h
    injection h with h
    subst h
    exact processQueryBody_ok_conf hb
  | error e =>
    rw [hb] at h
    injection h with h
    subst h
    constructor <;> norm_num [processingErrorResult]

/-- Witness for claim C9 at a concrete failing run whose confidence is 0. -/
theorem claim_C9_witness :
    processQuery cqTomato (.ok []) (.ok true) (.error .externalE) (.error .externalE)
      = .ok (processingErrorResult (normalizeQuery cqTomato) .nameErrorE)
    ∧ 0 ≤ (processingErrorResult (normalizeQuery cqTomato) .nameErrorE).confidence_score
    ∧ (processingErrorResult (normalizeQuery cqTomato) .nameErrorE).confidence_score ≤ 1 := by
  have h : processQuery cqTomato (.ok []) (.ok true) (.error .externalE) (.error .externalE)
      = .ok (processingErrorResult (normalizeQuery cqTomato) .nameErrorE) := by decide
  exact ⟨h, claim_C9 cqTomato (.ok []) (.ok true) (.error .externalE) (.error .externalE)
    (processingErrorResult (normalizeQuery cqTomato) .nameErrorE) h⟩

/-- Claim C10: validate_ingredients is idempotent — every output element is
already lowercased and stripped and matches the common-ingredients set, so
a second application keeps the list unchanged. -/
theorem claim_C10 (xs : List PyStr) :
    validateIngredients (validateIngredients xs) = validateIngredients xs := by
  induction xs with
  | nil => rfl
  | cons ing rest ih =>
    by_cases h1 : matchesCommon (cleanIng ing)
    · have e1 : validateIngredients (ing :: rest)
          = cleanIng ing :: validateIngredients rest := by
        simp [validateIngredients, h1]
      have h1i : matchesCommon (cleanIng (cleanIng ing)) = true := by
        rw [cleanIng_idem]; exact h1
      have e2 : validateIngredients (cleanIng ing :: validateIngredients rest)
          = cleanIng (cleanIng ing) :: validateIngredients (validateIngredients rest) := by
        simp [validateIngredients, h1i]
      rw [e1, e2, cleanIng_idem, ih]
    · by_cases h2 : matchesCommonPlural (cleanIng ing)
      · have e1 : validateIngredients (ing :: rest)
            = cleanIng ing :: validateIngredients rest := by
          simp [validateIngredients, h1, h2]
        have h1i : matchesCommon (cleanIng (cleanIng ing)) = false := by
          rw [cleanIng_idem]; simpa using h1
        have h2i : matchesCommonPlural (cleanIng (cleanIng ing)) = true := by
          rw [cleanIng_idem]; exact h2
        have e2 : validateIngredients (cleanIng ing :: validateIngredients rest)
            = cleanIng (cleanIng ing) :: validateIngredients (validateIngredients rest) := by
          simp [validateIngredients, h1i, h2i]
        rw [e1, e2, cleanIng_idem, ih]
      · have e1 : validateIngredients (ing :: rest) = validateIngredients rest := by
          simp [validateIngredients, h1, h2]
        rw [e1, ih]

end RecipeGen
